import Mathlib

/-!
# FDIC Bank Explorer — verification of the filter/view-derivation core

Shallow embedding of the interactive filter-propagation logic of
`fdic_dashboard.py`.  The two CSV tables (`fdic_institutions.csv`,
`fdic_locations.csv`) are runtime inputs, so every embedded callback takes
them as explicit list-of-record parameters.  Nullable dataframe cells are
`Option String` (pandas `NaN` is `none`); `CERT` is a plain `String` in both
tables because the loader coerces it with `astype(str)`.  Plotly figures and
Dash HTML fragments are abstracted to the data payloads they render (row
sets, aggregate count lists, title/message strings); purely visual styling
(colors, margins, zoom levels) is not modelled.  A Python value used in a
boolean position (`if not cert`, `if chart_state_filter`) is truthy iff it
is a non-`None`, non-empty string; `isTruthy` models this.
-/

namespace FDIC

/-- A row of the `fdic_locations.csv` table, restricted to the columns the
dashboard callbacks read.  All columns except the loader-normalised `CERT`
key may be missing (`NaN`), hence `Option String`. -/
structure LocationRow where
  CERT : String
  STNAME : Option String
  COUNTY : Option String
  NAME : Option String
  OFFNAME : Option String
  ADDRESS : Option String
  CITY : Option String
  ZIP : Option String
  SERVTYPE_DESC : Option String
  MAINOFF : Option String
  ESTYMD : Option String
deriving DecidableEq

/-- A row of the `fdic_institutions.csv` table, restricted to the columns the
embedded callbacks read (`CERT` after `astype(str)`, and the institution
name used for sorting and display). -/
structure InstitutionRow where
  CERT : String
  NAME : String
deriving DecidableEq

/-- A Dash dropdown option: a `{"label": ..., "value": ...}` dict. -/
structure DropOption where
  label : String
  value : String
deriving DecidableEq

/-- Python truthiness of an optional string: `None` and `""` are falsy,
every other string is truthy. -/
def isTruthy : Option String → Bool
  | none => false
  | some s => !(s == "")

/-- Code-point lexicographic order on strings (the order Python `sorted`
uses on strings), stated on the underlying character lists so that it is
kernel-computable; `strLe_iff` below identifies it with `≤` on `String`. -/
def strLe (a b : String) : Prop := a.data ≤ b.data

/-- `strLe` is decidable by structural recursion on the character lists. -/
def strLeDec : (a b : String) → Decidable (strLe a b) :=
  fun a b => inferInstanceAs (Decidable (a.data ≤ b.data))

/-- The synthetic "All Counties" option that the county dropdown always
carries first. -/
def allCountiesOption : DropOption := ⟨"All Counties", "ALL"⟩

/-- The sorted, deduplicated county names of the location rows whose state
equals `s`: embeds
`sorted(locations[locations["STNAME"] == selected_state]["COUNTY"].dropna().unique())`. -/
def countiesInState (locations : List LocationRow) (s : String) : List String :=
  @List.insertionSort String strLe strLeDec
    (((locations.filter (fun r => r.STNAME == some s)).filterMap
      (fun r => r.COUNTY)).dedup)

/-- Embeds the `update_county_options` callback: computes the county
dropdown's options and resets its value to `"ALL"`.  When the state selector
is `"ALL"` the code returns only the synthetic option, without querying the
location table. -/
def update_county_options (locations : List LocationRow) (selected_state : String) :
    List DropOption × String :=
  if selected_state == "ALL" then ([allCountiesOption], "ALL")
  else
    (allCountiesOption ::
      (countiesInState locations selected_state).map (fun c => ⟨c, c⟩), "ALL")

/-- The institution-dropdown label `f"{row['NAME']} (CERT: {row['CERT']})"`. -/
def instLabel (i : InstitutionRow) : String :=
  i.NAME ++ " (CERT: " ++ i.CERT ++ ")"

/-- The name order used by `sort_values("NAME")`. -/
def instNameLe (a b : InstitutionRow) : Prop := strLe a.NAME b.NAME

/-- Decidability of the name order. -/
def instNameLeDec : (a b : InstitutionRow) → Decidable (instNameLe a b) :=
  fun a b => strLeDec a.NAME b.NAME

/-- The location rows matching the state and county dropdown selectors, an
`"ALL"` selector being a no-op: embeds the two sequential dataframe filters
shared by `update_institution_options` and the no-institution branch of
`update_branch_table`. -/
def filterByDropdowns (locations : List LocationRow)
    (selected_state selected_county : String) : List LocationRow :=
  let l1 := if selected_state != "ALL"
    then locations.filter (fun r => r.STNAME == some selected_state) else locations
  if selected_county != "ALL"
    then l1.filter (fun r => r.COUNTY == some selected_county) else l1

/-- Embeds the `update_institution_options` callback: the institutions whose
`CERT` occurs among the dropdown-filtered location rows, sorted by name and
rendered as dropdown options. -/
def update_institution_options (institutions : List InstitutionRow)
    (locations : List LocationRow) (selected_state selected_county : String) :
    List DropOption :=
  let filtered_locations := filterByDropdowns locations selected_state selected_county
  let certs_in_area := (filtered_locations.map (fun r => r.CERT)).dedup
  let filtered_institutions :=
    institutions.filter (fun i => certs_in_area.contains i.CERT)
  (@List.insertionSort InstitutionRow instNameLe instNameLeDec
    filtered_institutions).map (fun i => ⟨instLabel i, i.CERT⟩)

/-- The institution-info payload of `update_dashboard` (first output),
abstracted to the data the rendered HTML fragment shows. -/
inductive InstInfo
  /-- "Select an institution to view details" -/
  | placeholder
  /-- `f"No branch data found for {inst['NAME']}"` -/
  | noBranchData (name : String)
  /-- The info card: institution name, certificate id, branch count. -/
  | card (name : String) (cert : String) (branchCount : Nat)
deriving DecidableEq

/-- Embeds the institution-info output of the `update_dashboard` callback.
`institutions[institutions["CERT"] == cert].iloc[0]` raises `IndexError`
when no institution row matches a truthy `cert`; that failure is the
`Except.error` case. -/
def update_dashboard_info (institutions : List InstitutionRow)
    (locations : List LocationRow) (cert : Option String) :
    Except String InstInfo :=
  if !isTruthy cert then .ok .placeholder
  else
    match (institutions.filter (fun i => some i.CERT == cert)).head? with
    | none => .error "IndexError: single positional indexer is out-of-bounds"
    | some inst =>
      let branches := locations.filter (fun r => some r.CERT == cert)
      if branches.isEmpty then .ok (.noBranchData inst.NAME)
      else .ok (.card inst.NAME inst.CERT branches.length)

/-- Embeds the `update_chart_state_filter` callback.  `triggered_id` is
Dash's `ctx.triggered_id`; a chart `clickData` dict is abstracted to the
state name the click carries (`points[0]["x"]` resp. `points[0]["label"]`),
`none` when no click data is present.  The `state-filter` /
`institution-dropdown` input values are only reset triggers and are not
read by the body. -/
def update_chart_state_filter (triggered_id : String)
    (bar_click pie_click : Option String) (current_state : Option String) :
    Option String :=
  if triggered_id == "state-filter" || triggered_id == "institution-dropdown" then
    none
  else if triggered_id == "state-bar-chart" && bar_click.isSome then
    (if current_state == bar_click then none else bar_click)
  else if triggered_id == "state-pie-chart" && pie_click.isSome then
    (if current_state == pie_click then none else pie_click)
  else current_state

/-- Embeds the `update_chart_county_filter` callback; conventions as in
`update_chart_state_filter`, the click value being `points[0]["y"]` of the
county bar chart. -/
def update_chart_county_filter (triggered_id : String)
    (county_click : Option String) (current_county : Option String) :
    Option String :=
  if triggered_id == "state-filter" || triggered_id == "county-filter" ||
      triggered_id == "institution-dropdown" || triggered_id == "chart-state-filter" then
    none
  else if triggered_id == "county-bar-chart" && county_click.isSome then
    (if current_county == county_click then none else county_click)
  else current_county

/-- `COUNTY.value_counts()` of a set of location rows: distinct non-null
county names with their multiplicities, sorted by descending count (ties in
first-occurrence order of the deduplicated list — pandas does not fix the
tie order, the embedding picks the stable one). -/
def countyCounts (rows : List LocationRow) : List (String × Nat) :=
  let cs := rows.filterMap (fun r => r.COUNTY)
  @List.insertionSort (String × Nat) (fun a b => b.2 ≤ a.2)
    (fun a b => Nat.decLe b.2 a.2) (cs.dedup.map (fun c => (c, cs.count c)))

/-- The effective state filter of the county chart: the chart-click override
when truthy, else the state dropdown when it is not `"ALL"`, else nothing.
Embeds
`chart_state_filter if chart_state_filter else (state_filter if state_filter != "ALL" else None)`. -/
def active_state_filter (chart_state_filter : Option String)
    (state_filter : String) : Option String :=
  if isTruthy chart_state_filter then chart_state_filter
  else if state_filter != "ALL" then some state_filter else none

/-- The county-chart figure of `update_county_chart`, abstracted to its data
payload. -/
inductive CountyChart
  /-- The unannotated empty figure (no institution, or no branch rows). -/
  | empty
  /-- Empty figure annotated `f"No branches in {active_state_filter}"`. -/
  | noBranchesIn (activeState : Option String)
  /-- Horizontal bar chart of the top-15 county counts, with its title. -/
  | bar (topCounties : List (String × Nat)) (title : String)
deriving DecidableEq

/-- Embeds the `update_county_chart` callback. -/
def update_county_chart (locations : List LocationRow) (cert : Option String)
    (state_filter : String) (chart_state_filter : Option String) : CountyChart :=
  if !isTruthy cert then .empty
  else
    let branches := locations.filter (fun r => some r.CERT == cert)
    if branches.isEmpty then .empty
    else
      let active := active_state_filter chart_state_filter state_filter
      let fd : List LocationRow × String :=
        if isTruthy active then
          (branches.filter (fun r => r.STNAME == active),
            "Branches by County (" ++ active.getD "" ++ ")")
        else (branches, "Branches by County (All States)")
      if fd.1.isEmpty then .noBranchesIn active
      else .bar ((countyCounts fd.1).take 15) fd.2

/-- The ten columns `update_branch_table` projects a location row to, each
missing value replaced by the empty string (`fillna("")`), in the order of
the column selection. -/
def toTableRecord (r : LocationRow) : List (Option String) :=
  [r.NAME, r.OFFNAME, r.ADDRESS, r.CITY, r.COUNTY, r.STNAME, r.ZIP,
    r.SERVTYPE_DESC, r.MAINOFF, r.ESTYMD].map (fun o => some (o.getD ""))

/-- The `table-filter-info` message of `update_branch_table`, abstracted to
the data interpolated into the f-strings. -/
inductive TableMsg
  /-- "Select a state/county to view all branches, or select an institution" -/
  | selectPrompt
  /-- "Showing all branches in {filters} ({count} branches from all institutions)" -/
  | showingAll (filters : List String) (count : Nat)
  /-- The empty message returned when the selected institution has no branch rows. -/
  | emptyMsg
  /-- "Filtered by chart selection: {filters} (click again to clear)" -/
  | chartFiltered (filters : List String)
  /-- "Click on a state or county chart to filter" -/
  | clickHint
deriving DecidableEq

/-- Embeds the `update_branch_table` callback: the table rows (projected,
null-filled records) together with the filter-info message. -/
def update_branch_table (locations : List LocationRow) (cert : Option String)
    (state_filter county_filter : String)
    (chart_state chart_county : Option String) :
    List (List (Option String)) × TableMsg :=
  if !isTruthy cert then
    if state_filter == "ALL" && county_filter == "ALL" then
      ([], .selectPrompt)
    else
      let table_branches := filterByDropdowns locations state_filter county_filter
      let filter_info_parts :=
        (if state_filter != "ALL" then ["State: " ++ state_filter] else []) ++
        (if county_filter != "ALL" then ["County: " ++ county_filter] else [])
      (table_branches.map toTableRecord,
        .showingAll filter_info_parts table_branches.length)
  else
    let branches := locations.filter (fun r => some r.CERT == cert)
    if branches.isEmpty then ([], .emptyMsg)
    else
      let tb1 := filterByDropdowns branches state_filter county_filter
      let tb2 := if isTruthy chart_state
        then tb1.filter (fun r => r.STNAME == chart_state) else tb1
      let tb3 := if isTruthy chart_county
        then tb2.filter (fun r => r.COUNTY == chart_county) else tb2
      let filter_info_parts :=
        (if isTruthy chart_state then ["State: " ++ chart_state.getD ""] else []) ++
        (if isTruthy chart_county then ["County: " ++ chart_county.getD ""] else [])
      (tb3.map toTableRecord,
        if filter_info_parts.isEmpty then .clickHint
        else .chartFiltered filter_info_parts)

/-- The full filter state of the dashboard (§3 of the design): the three
selectors and the two transient chart-click overrides. -/
structure FilterState where
  stateSelector : String
  countySelector : String
  institutionSelector : Option String
  chartStateOverride : Option String
  chartCountyOverride : Option String
deriving DecidableEq

/-- The county-chart view as a function of the full filter state: the
`update_county_chart` callback subscribes only to the institution dropdown,
the state dropdown and the chart-state store. -/
def countyChartView (locations : List LocationRow) (fs : FilterState) : CountyChart :=
  update_county_chart locations fs.institutionSelector fs.stateSelector
    fs.chartStateOverride

/-! Spec-side definitions, written from the design document's words, used to
state the refinement-style claims against the embedded code. -/

/-- Spec-side dropdown constraint of §4.5: a location row matches the state
and county selectors, a selector of value `"ALL"` being a no-op. -/
def dropdownMatches (sf cf : String) (r : LocationRow) : Bool :=
  ((sf == "ALL") || r.STNAME == some sf) &&
  ((cf == "ALL") || r.COUNTY == some cf)

/-- Spec-side predicate of §4.3: institution `i` has at least one branch
matching both the state and the county constraint. -/
def institutionHasMatch (locations : List LocationRow) (sf cf : String)
    (i : InstitutionRow) : Bool :=
  locations.any (fun r => r.CERT == i.CERT && dropdownMatches sf cf r)

/-- Spec-side institution option resolver of §4.3: the institutions having
at least one matching branch, sorted by name and formatted as
`"{name} (CERT: {id})"`. -/
def specInstitutionOptions (institutions : List InstitutionRow)
    (locations : List LocationRow) (sf cf : String) : List DropOption :=
  (@List.insertionSort InstitutionRow instNameLe instNameLeDec
    (institutions.filter (institutionHasMatch locations sf cf))).map
    (fun i => ⟨instLabel i, i.CERT⟩)

/-- Spec-side conjunctive branch-table constraint of §4.5 (institution
selected): a row belongs to the institution AND satisfies the state
dropdown AND the county dropdown AND the chart state override AND the chart
county override, inactive constraints being no-ops. -/
def branchMatchesAll (cert sf cf : String) (cs cc : Option String)
    (r : LocationRow) : Bool :=
  r.CERT == cert && dropdownMatches sf cf r &&
    (!isTruthy cs || r.STNAME == cs) && (!isTruthy cc || r.COUNTY == cc)

/-! Concrete example rows used by witnesses and counterexamples. -/

/-- A Texas branch row of institution `"1"` with a missing `ADDRESS` cell. -/
def rowTX : LocationRow :=
  ⟨"1", some "Texas", some "Travis", some "Alpha Bank", some "Main Office", none,
    some "Austin", some "78701", some "Full Service", some "1", some "1990-01-01"⟩

/-- A second Texas branch row of institution `"1"`. -/
def rowTX2 : LocationRow :=
  ⟨"1", some "Texas", some "Bexar", some "Alpha Bank", some "Branch 2",
    some "2 Alamo St", some "San Antonio", some "78205", some "Full Service",
    some "0", some "1995-01-01"⟩

/-- An Oklahoma branch row of institution `"2"`. -/
def rowOK : LocationRow :=
  ⟨"2", some "Oklahoma", some "Tulsa", some "Beta Bank", some "Branch 1",
    some "3 Main St", some "Tulsa", some "74101", some "Full Service",
    some "1", some "1980-01-01"⟩

/-- The institution record with certificate `"1"`. -/
def instA : InstitutionRow := ⟨"1", "Alpha Bank"⟩

/-! Helper lemmas shared by the claim theorems. -/

/-- A conditionally applied filter is an unconditional filter whose predicate
is vacuous when the guard is off. -/
theorem filter_guard {α : Type} (b : Bool) (p : α → Bool) (l : List α) :
    (if b = true then l.filter p else l) = l.filter (fun a => !b || p a) := by
  cases b <;> simp

/-- `filterByDropdowns` is the single filter by the conjunction of the two
dropdown constraints, an `"ALL"` constraint being a no-op. -/
theorem filterByDropdowns_eq_filter (locations : List LocationRow)
    (sf cf : String) :
    filterByDropdowns locations sf cf
      = locations.filter (dropdownMatches sf cf) := by
  unfold filterByDropdowns dropdownMatches
  rw [filter_guard, filter_guard, List.filter_filter]
  exact List.filter_congr (fun r _ => by cases h1 : sf == "ALL" <;>
    cases h2 : cf == "ALL" <;> simp [bne, h1, h2, Bool.and_comm])

/-- `insertionSort` returns the empty list exactly on the empty list. -/
theorem insertionSort_eq_nil_iff {α : Type} (r : α → α → Prop)
    (d : DecidableRel r) (l : List α) :
    @List.insertionSort α r d l = [] ↔ l = [] := by
  constructor
  · intro h
    have hp := @List.perm_insertionSort α r d l
    rw [h] at hp
    exact List.perm_nil.mp hp.symm
  · rintro rfl
    rfl

/-- `strLe` is the `≤` order on strings. -/
theorem strLe_iff (a b : String) : strLe a b ↔ a ≤ b := by
  rw [String.le_iff_toList_le]
  exact Iff.rfl

/-- `strLe` is total. -/
theorem strLe_isTotal : IsTotal String strLe :=
  ⟨fun a b => by rw [strLe_iff, strLe_iff]; exact le_total a b⟩

/-- `strLe` is transitive. -/
theorem strLe_isTrans : IsTrans String strLe :=
  ⟨fun a b c hab hbc => by
    rw [strLe_iff] at *
    exact le_trans hab hbc⟩

/-- Every entry of a projected, null-filled table record is non-null. -/
theorem toTableRecord_isSome (r : LocationRow) :
    ∀ o ∈ toTableRecord r, o.isSome = true := by
  intro o ho
  simp only [toTableRecord, List.mem_map] at ho
  obtain ⟨a, _, rfl⟩ := ho
  rfl

/-- Claim C4 (confirmed): when no institution is selected and both the
state and county selectors are `"ALL"`, `update_branch_table` returns zero
rows together with the prompt message "Select a state/county to view all
branches, or select an institution" — not the full set of branches. -/
theorem branchTable_noInst_allAll_prompt (locations : List LocationRow)
    (cert chart_state chart_county : Option String)
    (h : isTruthy cert = false) :
    update_branch_table locations cert "ALL" "ALL" chart_state chart_county
      = ([], TableMsg.selectPrompt) := by
  simp [update_branch_table, h]

/-- Witness for `branchTable_noInst_allAll_prompt` at a non-empty location
table: the table has a branch row, yet the operation returns no rows. -/
theorem branchTable_noInst_allAll_prompt_witness :
    isTruthy none = false ∧
    update_branch_table [rowTX, rowOK] none "ALL" "ALL" none none
      = ([], TableMsg.selectPrompt) :=
  ⟨rfl, branchTable_noInst_allAll_prompt [rowTX, rowOK] none none none rfl⟩

/-- Claim C5 (confirmed): for both chart-click overrides (state-level, via
the bar chart or the pie chart, and county-level) and every clicked value
`v`: a click carrying `v` when the override differs from `set(v)` yields
`set(v)`; a click carrying `v` when the override is `set(v)` yields `unset`;
hence two successive clicks on `v`, the first of which sets the override,
return it to `unset`. -/
theorem chartClick_toggle (v : String) (current bar pie : Option String) :
    (current ≠ some v →
      update_chart_state_filter "state-bar-chart" (some v) pie current = some v ∧
      update_chart_state_filter "state-pie-chart" bar (some v) current = some v ∧
      update_chart_county_filter "county-bar-chart" (some v) current = some v) ∧
    (update_chart_state_filter "state-bar-chart" (some v) pie (some v) = none ∧
     update_chart_state_filter "state-pie-chart" bar (some v) (some v) = none ∧
     update_chart_county_filter "county-bar-chart" (some v) (some v) = none) ∧
    (current ≠ some v →
      update_chart_state_filter "state-bar-chart" (some v) pie
        (update_chart_state_filter "state-bar-chart" (some v) pie current) = none ∧
      update_chart_state_filter "state-pie-chart" bar (some v)
        (update_chart_state_filter "state-pie-chart" bar (some v) current) = none ∧
      update_chart_county_filter "county-bar-chart" (some v)
        (update_chart_county_filter "county-bar-chart" (some v) current) = none) := by
  have hbar : update_chart_state_filter "state-bar-chart" (some v) pie current
      = if current == some v then none else some v := rfl
  have hpie : update_chart_state_filter "state-pie-chart" bar (some v) current
      = if current == some v then none else some v := rfl
  have hcnt : update_chart_county_filter "county-bar-chart" (some v) current
      = if current == some v then none else some v := rfl
  refine ⟨fun h => ?_, ⟨?_, ?_, ?_⟩, fun h => ?_⟩
  · have hb : (current == some v) = false := beq_eq_false_iff_ne.mpr h
    exact ⟨by rw [hbar]; simp [hb], by rw [hpie]; simp [hb], by rw [hcnt]; simp [hb]⟩
  · simp [update_chart_state_filter]
  · simp [update_chart_state_filter]
  · simp [update_chart_county_filter]
  · have hb : (current == some v) = false := beq_eq_false_iff_ne.mpr h
    refine ⟨?_, ?_, ?_⟩
    · rw [hbar]; simp [hb, update_chart_state_filter]
    · rw [hpie]; simp [hb, update_chart_state_filter]
    · rw [hcnt]; simp [hb, update_chart_county_filter]

/-- Witness for `chartClick_toggle`: clicking `"Texas"` on the state bar
chart with no override active sets the override to `"Texas"`, and a second
click clears it. -/
theorem chartClick_toggle_witness :
    (none : Option String) ≠ some "Texas" ∧
    update_chart_state_filter "state-bar-chart" (some "Texas") none none
      = some "Texas" ∧
    update_chart_state_filter "state-bar-chart" (some "Texas") none
      (update_chart_state_filter "state-bar-chart" (some "Texas") none none)
      = none :=
  ⟨by decide,
    ((chartClick_toggle "Texas" none none none).1 (by decide)).1,
    ((chartClick_toggle "Texas" none none none).2.2 (by decide)).1⟩

/-- Claim C6 (confirmed): every change event on an upstream selector clears
the dependent override: a `state-filter` or `institution-dropdown` trigger
unsets the chart state override, and a `state-filter`, `county-filter`,
`institution-dropdown` or `chart-state-filter` trigger unsets the chart
county override; in particular a state-dropdown change clears both. -/
theorem upstreamChange_clears_overrides (bar pie county current : Option String) :
    update_chart_state_filter "state-filter" bar pie current = none ∧
    update_chart_state_filter "institution-dropdown" bar pie current = none ∧
    update_chart_county_filter "state-filter" county current = none ∧
    update_chart_county_filter "county-filter" county current = none ∧
    update_chart_county_filter "institution-dropdown" county current = none ∧
    update_chart_county_filter "chart-state-filter" county current = none :=
  ⟨rfl, rfl, rfl, rfl, rfl, rfl⟩

/-- Claim C9 (confirmed): the county-chart view reads only the institution
selector, the state selector and the chart state override; two filter
states that differ only in the county selector and/or the county override
produce the same county chart. -/
theorem countyChart_independent_of_county_inputs (locations : List LocationRow)
    (fs1 fs2 : FilterState)
    (hstate : fs1.stateSelector = fs2.stateSelector)
    (hinst : fs1.institutionSelector = fs2.institutionSelector)
    (hover : fs1.chartStateOverride = fs2.chartStateOverride) :
    countyChartView locations fs1 = countyChartView locations fs2 := by
  unfold countyChartView
  rw [hstate, hinst, hover]

/-- Witness for `countyChart_independent_of_county_inputs`: two filter
states differing in both county inputs yield the same county chart. -/
theorem countyChart_independent_witness :
    countyChartView [rowTX, rowTX2, rowOK] ⟨"Texas", "Travis", some "1", none, none⟩
      = countyChartView [rowTX, rowTX2, rowOK]
          ⟨"Texas", "ALL", some "1", none, some "Bexar"⟩ :=
  countyChart_independent_of_county_inputs [rowTX, rowTX2, rowOK] _ _ rfl rfl rfl

/-- Claim C8 (confirmed): when the chart state override is set (to a clicked
state name `v`, necessarily non-empty), the county chart computes its
effective state from the override and ignores the state dropdown entirely;
only when the override is unset does the dropdown (when not `"ALL"`) become
the effective state, and an `"ALL"` dropdown with no override leaves the
county aggregation unrestricted. -/
theorem countyChart_override_precedence (locations : List LocationRow)
    (cert : Option String) (sf sf' v : String) (hv : v ≠ "") :
    update_county_chart locations cert sf (some v)
      = update_county_chart locations cert sf' (some v) ∧
    active_state_filter (some v) sf = some v ∧
    (sf ≠ "ALL" → active_state_filter none sf = some sf) ∧
    active_state_filter none "ALL" = none := by
  have hv' : (v == "") = false := beq_eq_false_iff_ne.mpr hv
  have ha : ∀ s, active_state_filter (some v) s = some v := fun s => by
    simp [active_state_filter, isTruthy, hv']
  refine ⟨?_, ha sf, fun h => ?_, rfl⟩
  · simp [update_county_chart, ha]
  · simp [active_state_filter, isTruthy, bne, beq_eq_false_iff_ne.mpr h]

/-- Witness for `countyChart_override_precedence`: with the override set to
`"Texas"`, the dropdown value (here `"Oklahoma"` vs `"ALL"`) is irrelevant
to the county chart; with the override unset, the `"Oklahoma"` dropdown is
the effective state. -/
theorem countyChart_override_precedence_witness :
    ("Texas" : String) ≠ "" ∧
    update_county_chart [rowTX, rowTX2, rowOK] (some "1") "Oklahoma" (some "Texas")
      = update_county_chart [rowTX, rowTX2, rowOK] (some "1") "ALL" (some "Texas") ∧
    active_state_filter (some "Texas") "Oklahoma" = some "Texas" ∧
    (("Oklahoma" : String) ≠ "ALL" →
      active_state_filter none "Oklahoma" = some "Oklahoma") :=
  ⟨by decide,
    (countyChart_override_precedence [rowTX, rowTX2, rowOK] (some "1")
      "Oklahoma" "ALL" "Texas" (by decide)).1,
    (countyChart_override_precedence [rowTX, rowTX2, rowOK] (some "1")
      "Oklahoma" "ALL" "Texas" (by decide)).2.1,
    (countyChart_override_precedence [rowTX, rowTX2, rowOK] (some "1")
      "Oklahoma" "ALL" "Texas" (by decide)).2.2.1⟩

/-- Claim C10 (confirmed): every row record returned by
`update_branch_table` is null-free — each of the ten projected cells is a
present string, missing cells having been replaced by `""` (`fillna("")`)
before the records are returned. -/
theorem branchTable_rows_no_nulls (locations : List LocationRow)
    (cert : Option String) (sf cf : String) (cs cc : Option String)
    (rec : List (Option String))
    (hrec : rec ∈ (update_branch_table locations cert sf cf cs cc).1) :
    ∀ o ∈ rec, o.isSome = true := by
  simp only [update_branch_table] at hrec
  split at hrec
  · split at hrec
    · simp at hrec
    · simp only [List.mem_map] at hrec
      obtain ⟨r, -, rfl⟩ := hrec
      exact toTableRecord_isSome r
  · split at hrec
    · simp at hrec
    · simp only [List.mem_map] at hrec
      obtain ⟨r, -, rfl⟩ := hrec
      exact toTableRecord_isSome r

/-- Witness for `branchTable_rows_no_nulls`: the record of `rowTX` (whose
`ADDRESS` cell is missing) is returned with every cell present, the missing
address having become `some ""`. -/
theorem branchTable_rows_no_nulls_witness :
    toTableRecord rowTX ∈ (update_branch_table [rowTX] none "Texas" "ALL" none none).1 ∧
    ∀ o ∈ toTableRecord rowTX, o.isSome = true :=
  ⟨by decide,
    branchTable_rows_no_nulls [rowTX] none "Texas" "ALL" none none _ (by decide)⟩

/-- Counterexample to claim C2: with a single Texas/Travis location row and
state selector `"ALL"`, the claim predicts the unrestricted full set of
counties (containing `"Travis"`) with the synthetic `"ALL"` option
prepended, but `update_county_options` returns only the synthetic `"ALL"`
option — it never adds county values for the `"ALL"` selector. -/
theorem countyOptions_all_counterexample :
    (update_county_options [rowTX] "ALL").1 = [allCountiesOption] ∧
    (¬ ∃ opt ∈ (update_county_options [rowTX] "ALL").1, opt.value = "Travis") ∧
    rowTX ∈ ([rowTX] : List LocationRow) ∧ rowTX.COUNTY = some "Travis" := by
  decide

/-- Claim C2 (corrected): `update_county_options` always resets the county
selector value to `"ALL"`; for a state selector `s ≠ "ALL"` its options are
the synthetic `"ALL"` option followed by the sorted, deduplicated county
values of exactly the location rows whose state equals `s`; but for
`s = "ALL"` the options are only the synthetic `"ALL"` option, not the
unrestricted full set of counties. -/
theorem countyOptions_spec (locations : List LocationRow) (s : String) :
    (update_county_options locations s).2 = "ALL" ∧
    (s = "ALL" → (update_county_options locations s).1 = [allCountiesOption]) ∧
    (s ≠ "ALL" →
      (update_county_options locations s).1
        = allCountiesOption ::
            (countiesInState locations s).map (fun c => (⟨c, c⟩ : DropOption)) ∧
      (countiesInState locations s).Pairwise (fun a b => a ≤ b) ∧
      (countiesInState locations s).Nodup ∧
      ∀ c, (c ∈ countiesInState locations s
              ↔ ∃ r ∈ locations, r.STNAME = some s ∧ r.COUNTY = some c)) := by
  refine ⟨?_, fun h => ?_, fun h => ⟨?_, ?_, ?_, fun c => ?_⟩⟩
  · unfold update_county_options
    split <;> rfl
  · subst h
    rfl
  · simp [update_county_options, beq_eq_false_iff_ne.mpr h]
  · have hs := @List.sorted_insertionSort String strLe strLeDec
      strLe_isTotal strLe_isTrans
      (((locations.filter (fun r => r.STNAME == some s)).filterMap
        (fun r => r.COUNTY)).dedup)
    exact hs.imp (fun hab => (strLe_iff _ _).mp hab)
  · exact (@List.perm_insertionSort String strLe strLeDec _).nodup_iff.mpr
      (List.nodup_dedup _)
  · simp [countiesInState, List.mem_filter, and_assoc]

/-- Witness for `countyOptions_spec`: the `"Texas"` selector yields the
sorted Texas counties behind the synthetic option and resets the value;
the `"ALL"` selector yields only the synthetic option. -/
theorem countyOptions_spec_witness :
    (update_county_options [rowTX, rowTX2, rowOK] "Texas").2 = "ALL" ∧
    ("Texas" : String) ≠ "ALL" ∧
    (update_county_options [rowTX, rowTX2, rowOK] "Texas").1
      = allCountiesOption ::
          (countiesInState [rowTX, rowTX2, rowOK] "Texas").map
            (fun c => (⟨c, c⟩ : DropOption)) ∧
    (update_county_options [rowTX, rowTX2, rowOK] "ALL").1 = [allCountiesOption] :=
  ⟨(countyOptions_spec [rowTX, rowTX2, rowOK] "Texas").1, by decide,
    ((countyOptions_spec [rowTX, rowTX2, rowOK] "Texas").2.2 (by decide)).1,
    (countyOptions_spec [rowTX, rowTX2, rowOK] "ALL").2.1 rfl⟩

/-- Counterexample to claim C7: with an empty institutions table and a
location row matching `("Texas", "ALL")`, a branch matches the constraints
yet `update_institution_options` returns the empty set — the claimed
"empty iff no branch matches" fails for orphan branches whose `CERT` has no
institution record. -/
theorem institutionOptions_empty_counterexample :
    update_institution_options [] [rowTX] "Texas" "ALL" = [] ∧
    dropdownMatches "Texas" "ALL" rowTX = true ∧
    rowTX ∈ ([rowTX] : List LocationRow) := by
  decide

/-- Claim C7 (corrected): `update_institution_options` returns exactly the
institutions (of the institutions table) having at least one branch
matching both constraints, an `"ALL"` constraint being a no-op, sorted by
name and formatted as `"{name} (CERT: {id})"`; the result is empty iff no
institution of record has a matching branch — a matching orphan branch
(whose `CERT` matches no institution record) does not make the result
non-empty. -/
theorem institutionOptions_spec (institutions : List InstitutionRow)
    (locations : List LocationRow) (sf cf : String) :
    update_institution_options institutions locations sf cf
      = specInstitutionOptions institutions locations sf cf ∧
    (update_institution_options institutions locations sf cf = []
      ↔ ∀ i ∈ institutions, institutionHasMatch locations sf cf i = false) := by
  have hfilt : institutions.filter (fun i =>
        (((filterByDropdowns locations sf cf).map (fun r => r.CERT)).dedup).contains
          i.CERT)
      = institutions.filter (institutionHasMatch locations sf cf) := by
    refine List.filter_congr (fun i _ => ?_)
    rw [Bool.eq_iff_iff]
    simp only [List.elem_iff, List.mem_dedup, List.mem_map,
      institutionHasMatch, List.any_eq_true, Bool.and_eq_true, beq_iff_eq,
      filterByDropdowns_eq_filter, List.mem_filter]
    constructor
    · rintro ⟨r, ⟨hr, hdd⟩, hc⟩
      exact ⟨r, hr, hc, hdd⟩
    · rintro ⟨r, hr, hc, hdd⟩
      exact ⟨r, ⟨hr, hdd⟩, hc⟩
  have h1 : update_institution_options institutions locations sf cf
      = specInstitutionOptions institutions locations sf cf := by
    simp only [update_institution_options, specInstitutionOptions]
    rw [hfilt]
  refine ⟨h1, ?_⟩
  rw [h1]
  unfold specInstitutionOptions
  rw [List.map_eq_nil_iff,
    insertionSort_eq_nil_iff instNameLe instNameLeDec, List.filter_eq_nil_iff]
  simp

/-- The institution-mode filter cascade of `update_branch_table` — branch
rows of the institution, then the two dropdown filters, then the two chart
override filters — equals one filter by the conjunctive predicate
`branchMatchesAll`. -/
theorem branch_filter_chain (locations : List LocationRow) (v sf cf : String)
    (cs cc : Option String) :
    (if isTruthy cc = true
      then (if isTruthy cs = true
              then (filterByDropdowns (locations.filter (fun r => r.CERT == v))
                      sf cf).filter (fun r => r.STNAME == cs)
              else filterByDropdowns (locations.filter (fun r => r.CERT == v))
                      sf cf).filter (fun r => r.COUNTY == cc)
      else (if isTruthy cs = true
              then (filterByDropdowns (locations.filter (fun r => r.CERT == v))
                      sf cf).filter (fun r => r.STNAME == cs)
              else filterByDropdowns (locations.filter (fun r => r.CERT == v))
                      sf cf))
      = locations.filter (branchMatchesAll v sf cf cs cc) := by
  rw [filter_guard, filter_guard, filterByDropdowns_eq_filter,
    List.filter_filter, List.filter_filter, List.filter_filter]
  refine List.filter_congr (fun r _ => ?_)
  simp only [branchMatchesAll]
  cases r.CERT == v <;> cases dropdownMatches sf cf r <;>
    cases isTruthy cs <;> cases isTruthy cc <;>
    cases r.STNAME == cs <;> cases r.COUNTY == cc <;> rfl

/-- Counterexample to claim C3: with one location row, no institution
selected and both selectors `"ALL"`, the claim predicts the rows restricted
by the (vacuous) dropdown selectors — i.e. the row's record — but the code
returns zero rows (the prompt branch). -/
theorem branchTable_noInst_counterexample :
    (update_branch_table [rowTX] none "ALL" "ALL" none none).1
      ≠ ([rowTX].filter (dropdownMatches "ALL" "ALL")).map toTableRecord ∧
    (update_branch_table [rowTX] none "ALL" "ALL" none none).1 = [] := by
  decide

/-- Claim C3 (corrected): with an institution selected (a truthy `cert`),
the branch-table rows are exactly the location rows satisfying the
institution constraint, the two dropdown selectors and the two chart
overrides conjunctively (AND); with no institution selected the chart
overrides never affect the rows, and — except in the both-`"ALL"` prompt
case, which returns zero rows — the rows are exactly those restricted by
the dropdown selectors only. -/
theorem branchTable_filters_conjunctive (locations : List LocationRow)
    (cert : Option String) (sf cf : String) (cs cc : Option String) :
    (∀ v : String, cert = some v → v ≠ "" →
      (update_branch_table locations cert sf cf cs cc).1
        = (locations.filter (branchMatchesAll v sf cf cs cc)).map toTableRecord) ∧
    (isTruthy cert = false →
      (∀ cs' cc' : Option String,
        (update_branch_table locations cert sf cf cs' cc').1
          = (update_branch_table locations cert sf cf cs cc).1) ∧
      (¬(sf = "ALL" ∧ cf = "ALL") →
        (update_branch_table locations cert sf cf cs cc).1
          = (locations.filter (dropdownMatches sf cf)).map toTableRecord)) := by
  constructor
  · rintro v rfl hv
    have ht : isTruthy (some v) = true := by simp [isTruthy, hv]
    have hpred : (fun r : LocationRow => some r.CERT == some v)
        = (fun r => r.CERT == v) := rfl
    simp only [update_branch_table, ht, Bool.not_true, Bool.false_eq_true,
      if_false, hpred]
    split
    · next hbe =>
      have hnil : locations.filter (fun r => r.CERT == v) = [] :=
        List.isEmpty_iff.mp hbe
      rw [List.filter_eq_nil_iff] at hnil
      have : locations.filter (branchMatchesAll v sf cf cs cc) = [] := by
        rw [List.filter_eq_nil_iff]
        intro a ha hpa
        refine hnil a ha ?_
        simp only [branchMatchesAll, Bool.and_eq_true] at hpa
        exact hpa.1.1.1
      simp [this]
    · rw [branch_filter_chain]
  · intro h0
    refine ⟨fun cs' cc' => ?_, fun hnall => ?_⟩
    · simp [update_branch_table, h0]
    · have hc : (sf == "ALL" && cf == "ALL") = false := by
        rcases not_and_or.mp hnall with h | h <;>
          simp [beq_eq_false_iff_ne.mpr h]
      simp [update_branch_table, h0, hc, filterByDropdowns_eq_filter]

/-- Witness for `branchTable_filters_conjunctive`: an institution-mode
instance where all four constraints apply conjunctively, a no-institution
instance where changing both overrides leaves the rows unchanged, and the
dropdown-only row set of the latter. -/
theorem branchTable_filters_conjunctive_witness :
    (update_branch_table [rowTX, rowTX2, rowOK] (some "1") "Texas" "ALL"
        none (some "Bexar")).1
      = ([rowTX, rowTX2, rowOK].filter
          (branchMatchesAll "1" "Texas" "ALL" none (some "Bexar"))).map
          toTableRecord ∧
    (update_branch_table [rowTX, rowOK] none "Texas" "ALL"
        (some "Oklahoma") none).1
      = (update_branch_table [rowTX, rowOK] none "Texas" "ALL"
          none (some "Travis")).1 ∧
    (update_branch_table [rowTX, rowOK] none "Texas" "ALL"
        none (some "Travis")).1
      = ([rowTX, rowOK].filter (dropdownMatches "Texas" "ALL")).map
          toTableRecord :=
  ⟨(branchTable_filters_conjunctive [rowTX, rowTX2, rowOK] (some "1") "Texas"
      "ALL" none (some "Bexar")).1 "1" rfl (by decide),
    ((branchTable_filters_conjunctive [rowTX, rowOK] none "Texas" "ALL"
      none (some "Travis")).2 rfl).1 (some "Oklahoma") none,
    ((branchTable_filters_conjunctive [rowTX, rowOK] none "Texas" "ALL"
      none (some "Travis")).2 rfl).2 (by decide)⟩

/-- Counterexample to claim C1: for the non-empty certificate id `"2"`,
which matches no institution record, `update_dashboard_info` raises
(`.iloc[0]` on an empty selection → `IndexError`) instead of returning a
neutral placeholder. -/
theorem dashboard_unmatched_cert_counterexample :
    update_dashboard_info [instA] [rowTX] (some "2")
      = .error "IndexError: single positional indexer is out-of-bounds" ∧
    (∀ i ∈ ([instA] : List InstitutionRow), i.CERT ≠ "2") :=
  ⟨rfl, by decide⟩

/-- Claim C1 (corrected): a missing certificate id (`None` or `""`) makes
`update_dashboard_info` return the neutral placeholder without error, and a
truthy certificate id matching no location row makes `update_branch_table`
return the empty result; but a truthy certificate id matching no
institution record makes `update_dashboard_info` fail with an `IndexError`
rather than return a placeholder. -/
theorem dashboard_missing_cert_behaviour (institutions : List InstitutionRow)
    (locations : List LocationRow) (cert : Option String)
    (sf cf : String) (cs cc : Option String) :
    (isTruthy cert = false →
      update_dashboard_info institutions locations cert = .ok .placeholder) ∧
    (isTruthy cert = true →
      institutions.filter (fun i => some i.CERT == cert) = [] →
      update_dashboard_info institutions locations cert
        = .error "IndexError: single positional indexer is out-of-bounds") ∧
    (isTruthy cert = true →
      locations.filter (fun r => some r.CERT == cert) = [] →
      update_branch_table locations cert sf cf cs cc
        = ([], TableMsg.emptyMsg)) := by
  refine ⟨fun h => ?_, fun h hf => ?_, fun h hf => ?_⟩
  · simp [update_dashboard_info, h]
  · simp [update_dashboard_info, h, hf]
  · simp [update_branch_table, h, hf]

/-- Witness for `dashboard_missing_cert_behaviour`: no selection yields the
placeholder; the unmatched truthy cert `"9"` yields the `IndexError` in the
info view and the empty result in the branch table. -/
theorem dashboard_missing_cert_behaviour_witness :
    update_dashboard_info [instA] [rowTX] none = .ok .placeholder ∧
    update_dashboard_info [instA] [rowTX] (some "9")
      = .error "IndexError: single positional indexer is out-of-bounds" ∧
    update_branch_table [rowTX] (some "9") "ALL" "ALL" none none
      = ([], TableMsg.emptyMsg) :=
  ⟨(dashboard_missing_cert_behaviour [instA] [rowTX] none "ALL" "ALL"
      none none).1 rfl,
    (dashboard_missing_cert_behaviour [instA] [rowTX] (some "9") "ALL" "ALL"
      none none).2.1 rfl (by decide),
    (dashboard_missing_cert_behaviour [instA] [rowTX] (some "9") "ALL" "ALL"
      none none).2.2 rfl (by decide)⟩

end FDIC
